import Mathlib

/-
Verification of the ytm-rs backend (src/src/ytm_rs_backend/__main__.py),
download subsystem.

Shallow embedding notes.  The live download route (lines 158-186) selects a
postprocessor from FORMAT_POSTPROCESSORS (lines 111-118, 161-164), deep-copies
the module-level opts dict (lines 15-33, 167), optionally prepends the
conversion step and records final_ext (168-170), invokes the extraction engine
(172-176), shapes the result (177-183) and returns it; any exception inside the
try block is returned as str(e) (185-186).  The streaming generator __download
(lines 122-155) is disabled: its body is the ellipsis statement and all of its
queue/thread/ndjson code is commented out, so the served response is a single
document, not an ndjson stream.

Python dict values in the opts table are strings, booleans or ints; they are
modelled by the PVal inductive below.  The extraction engine (yt_dlp) is an
external collaborator and is modelled as an opaque function from the url and
the built options to one of: a metadata dict, None, or a raised exception.
-/

namespace YtmRs

/-- Scalar value stored in a postprocessor dict (source uses strings and
booleans). -/
inductive PVal where
  | str (v : String)
  | bool (v : Bool)
deriving Repr, DecidableEq

/-- Contents of a postprocessor step descriptor: a string-keyed dict (source
lines 22-31 and 111-118), modelled as an association list.  This is the value
of a step dict; the identity of step dict objects matters for the aliasing
claims and is modelled in the heap section below. -/
abbrev PPStep := List (String × PVal)

/-- The FFmpegExtractAudio step of the base configuration (lines 23-28). -/
def extractAudioStep : PPStep :=
  [("key", .str "FFmpegExtractAudio"),
   ("nopostoverwrites", .bool false),
   ("preferredcodec", .str "best"),
   ("preferredquality", .str "5")]

/-- The FFmpegConcat step of the base configuration (line 30). -/
def concatStep : PPStep :=
  [("key", .str "FFmpegConcat"),
   ("only_multi_video", .bool true),
   ("when", .str "playlist")]

/-- Value-level view of the opts dict (lines 15-33): its scalar entries, its
postprocessors list and the optional final_ext entry (absent in the base
configuration, where the line setting it is commented out). -/
structure Opts where
  extract_flat : String
  format : String
  fragment_retries : Nat
  ignoreerrors : String
  outtmpl_default : String
  postprocessors : List PPStep
  retries : Nat
  final_ext : Option String
deriving Repr, DecidableEq

/-- The module-level base configuration opts (lines 15-33). -/
def opts : Opts where
  extract_flat := "discard_in_playlist"
  format := "bestaudio/best"
  fragment_retries := 10
  ignoreerrors := "only_download"
  outtmpl_default := ".tmp_%(id)s.%(ext)s"
  postprocessors := [extractAudioStep, concatStep]
  retries := 10
  final_ext := none

/-- FORMAT_POSTPROCESSORS (lines 111-118): maps a convert_to token to the
target extension and the conversion step to prepend. -/
def FORMAT_POSTPROCESSORS : List (String × (String × PPStep)) :=
  [("vorbis", ("ogg", [("key", .str "FFmpegVideoConvertor"),
                       ("preferedformat", .str "vorbis")])),
   ("aac", ("aac", [("key", .str "FFmpegVideoConvertor"),
                    ("preferedformat", .str "aac")])),
   ("flac", ("flac", [("key", .str "FFmpegVideoConvertor"),
                      ("preferedformat", .str "flac")])),
   ("mp3", ("mp3", [("key", .str "FFmpegVideoConvertor"),
                    ("preferedformat", .str "mp3")])),
   ("wav", ("wav", [("key", .str "FFmpegVideoConvertor"),
                    ("preferedformat", .str "wav")]))]

/-- Dict lookup in FORMAT_POSTPROCESSORS: the membership test plus subscript
of lines 163-164. -/
def formatLookup (c2 : String) : Option (String × PPStep) :=
  FORMAT_POSTPROCESSORS.lookup c2

/-- The DownloadDict request body (lines 103-105): a JSON object whose url and
convert_to keys may each be absent. -/
structure DownloadDict where
  url : Option String
  convert_to : Option String
deriving Repr, DecidableEq

/-- Lines 161-164: postprocessor is None unless convert_to is present in the
body and is a key of FORMAT_POSTPROCESSORS. -/
def selectPostprocessor (j : DownloadDict) : Option (String × PPStep) :=
  match j.convert_to with
  | some c2 => formatLookup c2
  | none => none

/-- Lines 167-170 at value level: deep-copy the base opts; if a postprocessor
was selected, insert its step at index 0 of the postprocessors list and set
final_ext to its extension. -/
def buildOpts (j : DownloadDict) : Opts :=
  let opts_ := opts
  match selectPostprocessor j with
  | some pp =>
      { opts_ with postprocessors := pp.2 :: opts_.postprocessors,
                   final_ext := some pp.1 }
  | none => opts_

/-- Outcome of the single extract_info call (lines 172-176): a metadata dict
(which may or may not carry a heatmap key), the None value, or a raised
exception whose str description is recorded. -/
inductive EngineResult where
  | info (hasHeatmap : Bool) (meta : String)
  | noneInfo
  | raises (msg : String)
deriving Repr, DecidableEq

/-- The extraction engine, opaque: what extract_info does for a given url and
options. -/
abbrev Engine := String → Opts → EngineResult

/-- Response the handler produces: a JSON document (the shaped info dict), a
plain text body (str of a caught exception), or an exception escaping the
handler. -/
inductive HttpOutcome where
  | json (hasHeatmap : Bool) (meta : String)
  | text (s : String)
  | unhandled (exn : String)
deriving Repr, DecidableEq

/-- str(KeyError(\x27url\x27)), produced when the body lacks a url key
(line 175 subscript, caught at 185). -/
def keyErrorUrl : String := "\x27url\x27"

/-- str of the TypeError raised by a membership test on None (line 178 when
extract_info returned None, caught at 185). -/
def typeErrorNone : String := "argument of type \x27NoneType\x27 is not iterable"

/-- The download handler (lines 158-186).  The membership test on line 162
runs before the try block, so a None body raises an unhandled TypeError.
Inside the try block: options are built, then the url subscript runs (KeyError
when absent, caught), then the engine runs; its raised exceptions and the
TypeError from shaping a None result are caught and returned as text; a dict
result is returned with the heatmap key removed. -/
def download (json : Option DownloadDict) (eng : Engine) : HttpOutcome :=
  match json with
  | none => .unhandled "TypeError"
  | some j =>
      let opts_ := buildOpts j
      match j.url with
      | none => .text keyErrorUrl
      | some u =>
          match eng u opts_ with
          | .raises msg => .text msg
          | .noneInfo => .text typeErrorNone
          | .info _ meta => .json false meta

/-- Progress events of the spec data model: Status, Result, Error. -/
inductive Event where
  | status (payload : String)
  | result (meta : String)
  | error (msg : String)
deriving Repr, DecidableEq

/-- Result and Error are the terminal events. -/
def Event.isTerminal : Event → Bool
  | .result _ => true
  | .error _ => true
  | .status _ => false

/-- The sequence of events the response of one job delivers to the client: the
served body is a single document (the streaming generator is disabled), namely
one Result on success or one Error text on a caught failure; an unhandled
exception delivers no event. -/
def jobEvents : HttpOutcome → List Event
  | .json _ meta => [.result meta]
  | .text s => [.error s]
  | .unhandled _ => []

/-- Content type of the response Flask builds from the handler return value: a
dict return is serialized as application/json, a str return is an HTML-typed
text response, and an unhandled exception produces the HTML 500 page.  The
application/x-ndjson header appears only in the commented-out generator
(line 155). -/
def contentType : HttpOutcome → String
  | .json _ _ => "application/json"
  | .text _ => "text/html; charset=utf-8"
  | .unhandled _ => "text/html; charset=utf-8"

/-! Heap model for deepcopy and aliasing (claims about object identity).

The mutable objects in play are the opts dict, its postprocessors list, the
step dicts inside that list, and the step dicts owned by the module-level
FORMAT_POSTPROCESSORS table.  We model a heap of numbered objects.
copy.deepcopy at line 167 recursively copies the dict, the list and every
step dict in it to fresh addresses; the insert at line 169, however, runs
after the deepcopy and inserts the subscripted table entry itself, so the
step dict object owned by FORMAT_POSTPROCESSORS, not a copy of it, becomes
element 0 of the copied list. -/

/-- The scalar entries of the opts dict, held by value inside the heap dict
object (they are immutable and the module never reassigns them). -/
structure OptsScalars where
  extract_flat : String
  format : String
  fragment_retries : Nat
  ignoreerrors : String
  outtmpl_default : String
  retries : Nat
deriving Repr, DecidableEq

/-- A heap object: the opts dict (scalars by value, final_ext entry, reference
to its postprocessors list object), a postprocessors list holding references
to step dict objects, or a step dict object with its contents. -/
inductive HObj where
  | dict (sc : OptsScalars) (final_ext : Option String) (ppRef : Nat)
  | list (elems : List Nat)
  | step (s : PPStep)
deriving Repr, DecidableEq

/-- A heap: association list from addresses to objects. -/
abbrev Heap := List (Nat × HObj)

/-- Read the object at an address. -/
def hGet (h : Heap) (a : Nat) : Option HObj :=
  h.lookup a

/-- Overwrite the object at an address (in-place mutation). -/
def hSet : Heap → Nat → HObj → Heap
  | [], _, _ => []
  | (b, v) :: t, a, w => if a = b then (a, w) :: t else (b, v) :: hSet t a w

/-- An address not used by the heap. -/
def freshAddr (h : Heap) : Nat :=
  h.foldr (fun p m => max (p.1 + 1) m) 0

/-- The scalar entries of the module-level opts dict. -/
def baseScalars : OptsScalars where
  extract_flat := "discard_in_playlist"
  format := "bestaudio/best"
  fragment_retries := 10
  ignoreerrors := "only_download"
  outtmpl_default := ".tmp_%(id)s.%(ext)s"
  retries := 10

/-- Address of the base postprocessors list object. -/
def basePPAddr : Nat := 2

/-- Address of the base opts dict object. -/
def baseAddr : Nat := 3

/-- The module heap at import time: the two step dicts of the base chain, the
base postprocessors list and the opts dict (lines 15-33), and the five step
dicts owned by the FORMAT_POSTPROCESSORS table (lines 111-118). -/
def baseHeap : Heap :=
  [(0, .step extractAudioStep),
   (1, .step concatStep),
   (basePPAddr, .list [0, 1]),
   (baseAddr, .dict baseScalars none basePPAddr),
   (4, .step [("key", .str "FFmpegVideoConvertor"), ("preferedformat", .str "vorbis")]),
   (5, .step [("key", .str "FFmpegVideoConvertor"), ("preferedformat", .str "aac")]),
   (6, .step [("key", .str "FFmpegVideoConvertor"), ("preferedformat", .str "flac")]),
   (7, .step [("key", .str "FFmpegVideoConvertor"), ("preferedformat", .str "mp3")]),
   (8, .step [("key", .str "FFmpegVideoConvertor"), ("preferedformat", .str "wav")])]

/-- FORMAT_POSTPROCESSORS at heap level: each token maps to the target
extension and the address of the step dict object the table owns. -/
def FORMAT_POSTPROCESSORS_H : List (String × (String × Nat)) :=
  [("vorbis", ("ogg", 4)),
   ("aac", ("aac", 5)),
   ("flac", ("flac", 6)),
   ("mp3", ("mp3", 7)),
   ("wav", ("wav", 8))]

/-- Heap-level dict lookup of lines 163-164. -/
def formatLookupH (c2 : String) : Option (String × Nat) :=
  FORMAT_POSTPROCESSORS_H.lookup c2

/-- Heap-level postprocessor selection (lines 161-164). -/
def selectPostprocessorH (j : DownloadDict) : Option (String × Nat) :=
  match j.convert_to with
  | some c2 => formatLookupH c2
  | none => none

/-- Resolve a list of step object addresses to the step dict values they hold. -/
def resolveSteps (h : Heap) : List Nat → Option (List PPStep)
  | [] => some []
  | a :: as =>
      match hGet h a with
      | some (.step s) =>
          match resolveSteps h as with
          | some l => some (s :: l)
          | none => none
      | _ => none

/-- Value-level view of the opts dict at an address. -/
def resolve (h : Heap) (a : Nat) : Option Opts :=
  match hGet h a with
  | some (.dict sc fe pa) =>
      match hGet h pa with
      | some (.list es) =>
          match resolveSteps h es with
          | some l =>
              some { extract_flat := sc.extract_flat, format := sc.format,
                     fragment_retries := sc.fragment_retries,
                     ignoreerrors := sc.ignoreerrors,
                     outtmpl_default := sc.outtmpl_default,
                     postprocessors := l, retries := sc.retries,
                     final_ext := fe }
          | none => none
      | _ => none
  | _ => none

/-- Copy every step object of a postprocessors list to a fresh address: the
recursive part of copy.deepcopy. -/
def copySteps (h : Heap) : List Nat → Option (Heap × List Nat)
  | [] => some (h, [])
  | a :: as =>
      match hGet h a with
      | some (.step s) =>
          let na := freshAddr h
          match copySteps ((na, .step s) :: h) as with
          | some (h1, ns) => some (h1, na :: ns)
          | none => none
      | _ => none

/-- copy.deepcopy of the opts dict at an address (line 167): fresh copies of
every step object of the postprocessors list, a fresh list object referring
to those copies, and a fresh dict object referring to that list. -/
def deepcopyOpts (h : Heap) (a : Nat) : Option (Heap × Nat) :=
  match hGet h a with
  | some (.dict sc fe pa) =>
      match hGet h pa with
      | some (.list es) =>
          match copySteps h es with
          | some (h1, ns) =>
              let la := freshAddr h1
              let h2 := (la, .list ns) :: h1
              let da := freshAddr h2
              some ((da, .dict sc fe la) :: h2, da)
          | none => none
      | _ => none
  | _ => none

/-- Lines 167-170 given the already-selected postprocessor: deepcopy, then if
a postprocessor was selected, insert the address of the table-owned step dict
at index 0 of the copied list object (the insert runs after the deepcopy, so
the inserted object is the FORMAT_POSTPROCESSORS entry itself, never a copy)
and set final_ext on the copied dict object. -/
def buildOptsHCore (sel : Option (String × Nat)) (h : Heap) (a : Nat) :
    Option (Heap × Nat) :=
  match deepcopyOpts h a with
  | none => none
  | some (h1, da) =>
      match sel with
      | none => some (h1, da)
      | some pp =>
          match hGet h1 da with
          | some (.dict sc _ pa) =>
              match hGet h1 pa with
              | some (.list es) =>
                  some (hSet (hSet h1 pa (.list (pp.2 :: es))) da
                          (.dict sc (some pp.1) pa), da)
              | _ => none
          | _ => none

/-- Lines 161-170 at heap level: select the postprocessor from the request,
then build the per-job options on the heap. -/
def buildOptsH (j : DownloadDict) (h : Heap) (a : Nat) : Option (Heap × Nat) :=
  buildOptsHCore (selectPostprocessorH j) h a

/-- Addresses reachable from the opts dict at an address: the dict itself,
its postprocessors list, and every step object the list holds. -/
def refsOf (h : Heap) (a : Nat) : List Nat :=
  match hGet h a with
  | some (.dict _ _ pa) =>
      match hGet h pa with
      | some (.list es) => a :: pa :: es
      | _ => [a, pa]
  | _ => [a]

/-- Build the job options twice in sequence from the same request, starting
from the module heap: the final heap and the two result addresses. -/
def doubleBuild (j : DownloadDict) : Option (Heap × Nat × Nat) :=
  match buildOptsH j baseHeap baseAddr with
  | none => none
  | some (h1, a1) =>
      match buildOptsH j h1 baseAddr with
      | none => none
      | some (h2, a2) => some (h2, a1, a2)

/-- The addresses the reference sets of the two builds share. -/
def sharedRefs (j : DownloadDict) : Option (List Nat) :=
  match doubleBuild j with
  | none => none
  | some (h, a1, a2) => some ((refsOf h a1).inter (refsOf h a2))

/-- Sanity: the heap-level base configuration resolves to the value-level
opts. -/
theorem resolve_baseHeap : resolve baseHeap baseAddr = some opts := by
  decide

/-- Sanity: per token, the heap-level table records the same extension and
the same step dict contents as the value-level FORMAT_POSTPROCESSORS. -/
theorem FORMAT_POSTPROCESSORS_heap_agrees :
    FORMAT_POSTPROCESSORS_H.map (fun e => (e.1, e.2.1, hGet baseHeap e.2.2)) =
      FORMAT_POSTPROCESSORS.map
        (fun e => (e.1, e.2.1, some (HObj.step e.2.2))) := by
  decide

/-! Claims. -/

/-- Claim C4: for every download request whose convert_to value is a
recognized token of FORMAT_POSTPROCESSORS, the derived job options have the
step of that token as the first element of their postprocessors list, and
their final_ext field equals the target extension of that entry. -/
theorem C4_recognized_convert_to (j : DownloadDict) (c2 ext : String)
    (step : PPStep) (hc : j.convert_to = some c2)
    (hf : formatLookup c2 = some (ext, step)) :
    (buildOpts j).postprocessors.head? = some step ∧
      (buildOpts j).final_ext = some ext := by
  simp [buildOpts, selectPostprocessor, hc, hf]

/-- Witness for C4 at the request with convert_to mp3. -/
theorem C4_recognized_convert_to_witness :
    (buildOpts ⟨some "https://example.test/track", some "mp3"⟩).postprocessors.head?
        = some [("key", .str "FFmpegVideoConvertor"), ("preferedformat", .str "mp3")] ∧
      (buildOpts ⟨some "https://example.test/track", some "mp3"⟩).final_ext = some "mp3" :=
  C4_recognized_convert_to ⟨some "https://example.test/track", some "mp3"⟩
    "mp3" "mp3" [("key", .str "FFmpegVideoConvertor"), ("preferedformat", .str "mp3")]
    rfl rfl

/-- Claim C5: for every request whose convert_to is absent or not a key of
FORMAT_POSTPROCESSORS, the derived options have the base postprocessors list
unmodified and no final_ext, and the download behaves exactly as if
convert_to were absent (the request is never rejected). -/
theorem C5_unrecognized_convert_to (j : DownloadDict)
    (h : j.convert_to = none ∨
         ∃ c2, j.convert_to = some c2 ∧ formatLookup c2 = none) :
    (buildOpts j).postprocessors = opts.postprocessors ∧
      (buildOpts j).final_ext = none ∧
      ∀ eng : Engine, download (some j) eng = download (some ⟨j.url, none⟩) eng := by
  obtain ⟨u, c⟩ := j
  have hsel : selectPostprocessor ⟨u, c⟩ = none := by
    rcases h with h | ⟨c2, hc, hf⟩
    · simp_all [selectPostprocessor]
    · simp_all [selectPostprocessor]
  refine ⟨?_, ?_, ?_⟩
  · simp [buildOpts, hsel]
  · simp [buildOpts, hsel, opts]
  · intro eng
    have hb : buildOpts ⟨u, c⟩ = opts := by simp [buildOpts, hsel]
    have hb2 : buildOpts ⟨u, none⟩ = opts := by
      simp [buildOpts, selectPostprocessor]
    simp [download, hb, hb2]

/-- Witness for C5 at the request with the unrecognized token xyz. -/
theorem C5_unrecognized_convert_to_witness :
    (buildOpts ⟨some "https://example.test/track", some "xyz"⟩).postprocessors
        = opts.postprocessors ∧
      (buildOpts ⟨some "https://example.test/track", some "xyz"⟩).final_ext = none ∧
      ∀ eng : Engine,
        download (some ⟨some "https://example.test/track", some "xyz"⟩) eng
          = download (some ⟨some "https://example.test/track", none⟩) eng :=
  C5_unrecognized_convert_to ⟨some "https://example.test/track", some "xyz"⟩
    (Or.inr ⟨"xyz", rfl, rfl⟩)

/-- Claim C9: every entry of FORMAT_POSTPROCESSORS records as target extension
the token itself, except vorbis whose target extension is ogg. -/
theorem C9_target_extension (tok ext : String) (step : PPStep)
    (h : formatLookup tok = some (ext, step)) :
    ext = if tok = "vorbis" then "ogg" else tok := by
  unfold formatLookup FORMAT_POSTPROCESSORS at h
  simp only [List.lookup] at h
  repeat' split at h
  all_goals simp_all [beq_iff_eq]

/-- Witness for C9 at the token aac. -/
theorem C9_target_extension_witness :
    ("aac" : String) = if ("aac" : String) = "vorbis" then "ogg" else "aac" :=
  C9_target_extension "aac" "aac"
    [("key", .str "FFmpegVideoConvertor"), ("preferedformat", .str "aac")] rfl

/-- Claim C6: for every request body that parses to an object with no url key,
the handler returns the textual KeyError description synchronously; the
outcome does not depend on the engine at all (the engine is never invoked),
and no worker or stream exists in this path. -/
theorem C6_missing_url_sync_error (j : DownloadDict) (h : j.url = none)
    (eng eng2 : Engine) :
    download (some j) eng = .text keyErrorUrl ∧
      download (some j) eng = download (some j) eng2 := by
  constructor <;> simp [download, h]

/-- Witness for C6 at a body with only a convert_to key. -/
theorem C6_missing_url_sync_error_witness :
    download (some ⟨none, some "mp3"⟩) (fun _ _ => .info true "m")
        = .text keyErrorUrl ∧
      download (some ⟨none, some "mp3"⟩) (fun _ _ => .info true "m")
        = download (some ⟨none, some "mp3"⟩) (fun _ _ => .raises "boom") :=
  C6_missing_url_sync_error ⟨none, some "mp3"⟩ rfl
    (fun _ _ => .info true "m") (fun _ _ => .raises "boom")

/-- Claim C10: when the parsed request body is None (null), the membership
test on convert_to at line 162 runs before the try block is entered, so the
handler raises an unhandled TypeError and never produces a textual error
response. -/
theorem C10_null_body_unhandled (eng : Engine) :
    download none eng = .unhandled "TypeError" ∧
      ∀ s, download none eng ≠ .text s := by
  simp [download]

/-- Claim C1: for every valid download request (a body that parses to an
object carrying a url), the event sequence the job delivers is zero or more
Status events followed by exactly one terminal event (Result or Error) and
then termination; in the implemented path the Status prefix is always empty
because the streaming generator is disabled. -/
theorem C1_event_sequence (j : DownloadDict) (u : String) (h : j.url = some u)
    (eng : Engine) :
    ∃ (ss : List String) (t : Event),
      jobEvents (download (some j) eng) = ss.map Event.status ++ [t] ∧
      t.isTerminal = true ∧
      ((jobEvents (download (some j) eng)).filter
          (fun e => e.isTerminal)).length = 1 := by
  cases hE : eng u (buildOpts j) with
  | info hm m =>
      exact ⟨[], .result m, by simp [download, h, hE, jobEvents],
             rfl, by simp [download, h, hE, jobEvents, Event.isTerminal]⟩
  | noneInfo =>
      exact ⟨[], .error typeErrorNone, by simp [download, h, hE, jobEvents],
             rfl, by simp [download, h, hE, jobEvents, Event.isTerminal]⟩
  | raises msg =>
      exact ⟨[], .error msg, by simp [download, h, hE, jobEvents],
             rfl, by simp [download, h, hE, jobEvents, Event.isTerminal]⟩

/-- Witness for C1 at a concrete request with a succeeding engine. -/
theorem C1_event_sequence_witness :
    ∃ (ss : List String) (t : Event),
      jobEvents (download (some ⟨some "https://example.test/track", none⟩)
          (fun _ _ => .info false "meta")) = ss.map Event.status ++ [t] ∧
        t.isTerminal = true ∧
        ((jobEvents (download (some ⟨some "https://example.test/track", none⟩)
            (fun _ _ => .info false "meta"))).filter
            (fun e => e.isTerminal)).length = 1 :=
  C1_event_sequence ⟨some "https://example.test/track", none⟩
    "https://example.test/track" rfl (fun _ _ => .info false "meta")

/-- Counterexample to claim C2 as stated: at the concrete request with a url
and no conversion, with a succeeding engine, the response content type is not
application/x-ndjson (the handler returns the info dict, serialized by Flask
as application/json; the ndjson streaming code is disabled). -/
theorem C2_ndjson_counterexample :
    contentType (download (some ⟨some "https://example.test/track", none⟩)
        (fun _ _ => .info false "meta")) ≠ "application/x-ndjson" := by
  decide

/-- Claim C2 amended: the download response is a single document, never an
application/x-ndjson stream: its content type is application/json for a dict
result and an HTML text type otherwise, and it delivers at most one event
document rather than one document per Status, Result or Error event. -/
theorem C2_single_document_response (json : Option DownloadDict) (eng : Engine) :
    contentType (download json eng) ≠ "application/x-ndjson" ∧
      (jobEvents (download json eng)).length ≤ 1 := by
  cases hd : download json eng <;> simp [contentType, jobEvents]

/-- Claim C3: every exception raised by the engine during a download job is
caught at the handler boundary and converted into exactly one Error event
carrying str of the exception; it never escapes as an unhandled fault. -/
theorem C3_engine_failure_to_error (j : DownloadDict) (u : String)
    (eng : Engine) (msg : String) (hu : j.url = some u)
    (he : eng u (buildOpts j) = .raises msg) :
    download (some j) eng = .text msg ∧
      jobEvents (download (some j) eng) = [.error msg] ∧
      ∀ t, download (some j) eng ≠ .unhandled t := by
  refine ⟨?_, ?_, ?_⟩ <;> simp [download, hu, he, jobEvents]

/-- Witness for C3 at a concrete request whose engine raises. -/
theorem C3_engine_failure_to_error_witness :
    download (some ⟨some "https://example.test/broken", none⟩)
        (fun _ _ => .raises "DownloadError") = .text "DownloadError" ∧
      jobEvents (download (some ⟨some "https://example.test/broken", none⟩)
          (fun _ _ => .raises "DownloadError")) = [.error "DownloadError"] ∧
      ∀ t, download (some ⟨some "https://example.test/broken", none⟩)
          (fun _ _ => .raises "DownloadError") ≠ .unhandled t :=
  C3_engine_failure_to_error ⟨some "https://example.test/broken", none⟩
    "https://example.test/broken" (fun _ _ => .raises "DownloadError")
    "DownloadError" rfl rfl

/-- Claim C8: for every download request, building the job options succeeds
and leaves the shared base configuration unchanged on the heap: the base dict
object and the base postprocessors list object are untouched (the job mutates
only its own deep copy), so the base still resolves to the original opts. -/
theorem C8_base_config_preserved (j : DownloadDict) :
    ∃ p : Heap × Nat,
      buildOptsH j baseHeap baseAddr = some p ∧
      hGet p.1 baseAddr = hGet baseHeap baseAddr ∧
      hGet p.1 basePPAddr = hGet baseHeap basePPAddr ∧
      resolve p.1 baseAddr = some opts := by
  cases hsel : selectPostprocessorH j with
  | none =>
      unfold buildOptsH
      rw [hsel]
      exact ⟨_, rfl, rfl, rfl, rfl⟩
  | some pp =>
      obtain ⟨ext, sa⟩ := pp
      unfold buildOptsH
      rw [hsel]
      exact ⟨_, rfl, rfl, rfl, rfl⟩

/-- Counterexample to claim C7 as stated: at the request with convert_to mp3,
the two builds share exactly one heap object, the step dict at address 7,
which is the mp3 entry owned by FORMAT_POSTPROCESSORS: line 169 inserts that
dict itself after the deepcopy of line 167, so both chains hold the same
mutable step dict at index 0 and their reference sets are not disjoint. -/
theorem C7_shared_step_counterexample :
    sharedRefs ⟨some "https://example.test/track", some "mp3"⟩ = some [7] ∧
      sharedRefs ⟨some "https://example.test/track", some "mp3"⟩ ≠ some [] ∧
      formatLookupH "mp3" = some ("mp3", 7) ∧
      hGet baseHeap 7 =
        some (.step [("key", PVal.str "FFmpegVideoConvertor"),
                     ("preferedformat", PVal.str "mp3")]) := by
  decide

/-- Claim C7 amended: building the job options twice from the same request
yields chains that are structurally equal (both resolve to the value-level
build) and whose copied dict, list and base-step objects are pairwise
distinct; but whenever convert_to resolves to a recognized token, the two
reference sets share exactly one object, the table-owned step dict that both
builds insert at index 0, and that object is the unmodified
FORMAT_POSTPROCESSORS entry; the reference sets are disjoint exactly when no
conversion is selected. -/
theorem C7_rebuild_shared_table_step (j : DownloadDict) :
    ∃ p q : Heap × Nat,
      buildOptsH j baseHeap baseAddr = some p ∧
      buildOptsH j p.1 baseAddr = some q ∧
      resolve q.1 p.2 = some (buildOpts j) ∧
      resolve q.1 q.2 = some (buildOpts j) ∧
      p.2 ≠ q.2 ∧
      match selectPostprocessorH j with
      | none => (refsOf q.1 p.2).inter (refsOf q.1 q.2) = []
      | some pp =>
          (refsOf q.1 p.2).inter (refsOf q.1 q.2) = [pp.2] ∧
            hGet q.1 pp.2 = hGet baseHeap pp.2 := by
  obtain ⟨u, c⟩ := j
  rcases c with _ | c2
  · exact ⟨_, _, rfl, rfl, rfl, rfl, Nat.ne_of_beq_eq_false rfl, rfl⟩
  by_cases h1 : c2 = "vorbis"
  · subst h1
    exact ⟨_, _, rfl, rfl, rfl, rfl, Nat.ne_of_beq_eq_false rfl, rfl, rfl⟩
  by_cases h2 : c2 = "aac"
  · subst h2
    exact ⟨_, _, rfl, rfl, rfl, rfl, Nat.ne_of_beq_eq_false rfl, rfl, rfl⟩
  by_cases h3 : c2 = "flac"
  · subst h3
    exact ⟨_, _, rfl, rfl, rfl, rfl, Nat.ne_of_beq_eq_false rfl, rfl, rfl⟩
  by_cases h4 : c2 = "mp3"
  · subst h4
    exact ⟨_, _, rfl, rfl, rfl, rfl, Nat.ne_of_beq_eq_false rfl, rfl, rfl⟩
  by_cases h5 : c2 = "wav"
  · subst h5
    exact ⟨_, _, rfl, rfl, rfl, rfl, Nat.ne_of_beq_eq_false rfl, rfl, rfl⟩
  have b1 : (c2 == "vorbis") = false := beq_eq_false_iff_ne.mpr h1
  have b2 : (c2 == "aac") = false := beq_eq_false_iff_ne.mpr h2
  have b3 : (c2 == "flac") = false := beq_eq_false_iff_ne.mpr h3
  have b4 : (c2 == "mp3") = false := beq_eq_false_iff_ne.mpr h4
  have b5 : (c2 == "wav") = false := beq_eq_false_iff_ne.mpr h5
  have hsel : selectPostprocessorH ⟨u, some c2⟩ = none := by
    simp [selectPostprocessorH, formatLookupH, FORMAT_POSTPROCESSORS_H,
          List.lookup, b1, b2, b3, b4, b5]
  have hselV : selectPostprocessor ⟨u, some c2⟩ = none := by
    simp [selectPostprocessor, formatLookup, FORMAT_POSTPROCESSORS,
          List.lookup, b1, b2, b3, b4, b5]
  unfold buildOptsH buildOpts
  rw [hsel, hselV]
  exact ⟨_, _, rfl, rfl, rfl, rfl, Nat.ne_of_beq_eq_false rfl, rfl⟩

end YtmRs
